import Mathlib

/-!
# Verification of the GPT-2 ONNX export script

Shallow embedding of `src/export_onnx.py`.  The script defines one piece of
custom logic, the cache-disabling adapter `GPT2Wrapper`, and a linear export
driver `export_gpt2_to_onnx`.  Tensors are embedded as nested lists, the
wrapped pretrained model as a fallible function on keyword arguments, and the
driver as a pure function producing an event trace, a final filesystem state
and an exit status.  External collaborators (torch, transformers, os) are
modelled by explicit parameters and state.
-/

namespace IsGpt

/-- A 2-dimensional integer tensor (a batch of sequences), as used for
`input_ids` and `position_ids`. -/
abbrev Tensor2 := List (List Nat)

/-- A 3-dimensional tensor of logits indexed [batch, position, vocabulary]. -/
abbrev Tensor3 := List (List (List Int))

/-- The tensor `t` has shape `[b, l]`. -/
def HasShape2 (t : Tensor2) (b l : Nat) : Prop :=
  t.length = b ∧ ∀ r ∈ t, r.length = l

/-- The tensor `t` has shape `[b, l, v]`. -/
def HasShape3 (t : Tensor3) (b l v : Nat) : Prop :=
  t.length = b ∧ ∀ r ∈ t, r.length = l ∧ ∀ c ∈ r, c.length = v

instance (t : Tensor2) (b l : Nat) : Decidable (HasShape2 t b l) := by
  unfold HasShape2; infer_instance

instance (t : Tensor3) (b l v : Nat) : Decidable (HasShape3 t b l v) := by
  unfold HasShape3; infer_instance

/-- The keyword arguments the adapter passes to the wrapped model
(src/export_onnx.py, lines 18-23). -/
structure ModelArgs where
  input_ids : Tensor2
  position_ids : Tensor2
  use_cache : Bool
  return_dict : Bool

/-- The model output object; with `return_dict=True` the adapter reads its
`logits` field (src/export_onnx.py, line 24). -/
structure ModelOutput where
  logits : Tensor3

/-- The wrapped language model as seen by the adapter: a fallible map from
keyword arguments to an output object.  Failures of the underlying model
(malformed shapes, and so on) surface as `Except.error`. -/
abbrev Model := ModelArgs → Except String ModelOutput

/-- `class GPT2Wrapper(torch.nn.Module)`: holds one field, a reference to the
wrapped model (src/export_onnx.py, lines 10-14). -/
structure GPT2Wrapper where
  model : Model

/-- The argument object built by `GPT2Wrapper.forward`: token IDs, position
IDs, `use_cache=False` and `return_dict=True` (src/export_onnx.py,
lines 18-23). -/
def GPT2Wrapper.callArgs (input_ids position_ids : Tensor2) : ModelArgs :=
  { input_ids := input_ids
    position_ids := position_ids
    use_cache := false
    return_dict := true }

/-- `GPT2Wrapper.forward`: call the wrapped model on the argument object and
return its `logits` field (src/export_onnx.py, lines 16-24). -/
def GPT2Wrapper.forward (w : GPT2Wrapper) (input_ids position_ids : Tensor2) :
    Except String Tensor3 :=
  (w.model (GPT2Wrapper.callArgs input_ids position_ids)).map ModelOutput.logits

/-- State-passing form of the `forward` method: the method body contains no
assignment to `self`, so the wrapper object comes back unchanged. -/
def GPT2Wrapper.forwardSt (w : GPT2Wrapper) (input_ids position_ids : Tensor2) :
    Except String Tensor3 × GPT2Wrapper :=
  (w.forward input_ids position_ids, w)

/-- Shape agreement between two 2-dimensional tensors: equal batch lengths and
row-wise equal sequence lengths. -/
def shapesMatch (a b : Tensor2) : Bool :=
  a.length == b.length && (a.zip b).all fun p => p.1.length == p.2.length

/-- Modelled from the spec: the pretrained `GPT2LMHeadModel` returned by
`from_pretrained` is an external collaborator whose code is not under src/.
Per the spec it returns unnormalized next-token scores of shape
[batch, sequence_length, 50257] at every position when the token-ID and
position-ID inputs have identical shape, and fails on mismatched lengths. -/
def specGPT2 : Model := fun args =>
  if shapesMatch args.input_ids args.position_ids then
    Except.ok
      { logits := args.input_ids.map fun row =>
          row.map fun _ => List.replicate 50257 (0 : Int) }
  else
    Except.error "shape mismatch"

/-! ## The export driver -/

/-- `model_id = "gpt2"` (src/export_onnx.py, line 27). -/
def model_id : String := "gpt2"

/-- `output_dir = "models"` (src/export_onnx.py, line 28). -/
def output_dir : String := "models"

/-- `os.path.join` on a directory and a file name. -/
def joinPath (a b : String) : String := a ++ "/" ++ b

/-- `onnx_path = os.path.join(output_dir, "model.onnx")`
(src/export_onnx.py, line 54). -/
def onnx_path : String := joinPath output_dir "model.onnx"

/-- `batch_size = 1` (src/export_onnx.py, line 46). -/
def batch_size : Nat := 1

/-- `seq_length = 10` (src/export_onnx.py, line 47). -/
def seq_length : Nat := 10

/-- `torch.randint(0, 50257, (batch_size, seq_length))`: the random source is
abstracted as a function from flat index to a natural number; `randint` with
bounds 0 and 50257 yields values in [0, 50257), embedded by reduction
modulo 50257 (src/export_onnx.py, line 48). -/
def dummyInputIds (rand : Nat → Nat) : Tensor2 :=
  (List.range batch_size).map fun b =>
    (List.range seq_length).map fun i => rand (b * seq_length + i) % 50257

/-- `torch.arange(0, seq_length).unsqueeze(0)` (src/export_onnx.py, line 49). -/
def dummyPositionIds : Tensor2 :=
  [List.range seq_length]

/-- The arguments of the single `torch.onnx.export` call
(src/export_onnx.py, lines 57-72). -/
structure OnnxExportArgs where
  model : GPT2Wrapper
  dummy_input_ids : Tensor2
  dummy_position_ids : Tensor2
  path : String
  export_params : Bool
  opset_version : Nat
  do_constant_folding : Bool
  input_names : List String
  output_names : List String
  dynamic_axes : List (String × List (Nat × String))
  verbose : Bool

/-- Observable effects of one run of the script, in program order. -/
inductive Event where
  | makeDirs (dir : String) (exist_ok : Bool)
  | consolePrint (msg : String)
  | loadModel (id : String)
  | loadTokenizer (id : String)
  | onnxExport (args : OnnxExportArgs)
  | saveTokenizer (dir : String)
  | checkExists (path : String)

/-- Filesystem state: existing directories, existing files with their byte
sizes, and the directories a tokenizer artifact set has been saved into. -/
structure FS where
  dirs : List String
  files : List (String × Nat)
  tokenizerSavedIn : List String

/-- `os.makedirs(dir, exist_ok=True)`: create the directory when absent and
succeed silently when it already exists. -/
def FS.mkdirAll (fs : FS) (d : String) : FS :=
  { fs with dirs := if fs.dirs.contains d then fs.dirs else d :: fs.dirs }

/-- Write (or overwrite) a file of the given size. -/
def FS.writeFile (fs : FS) (p : String) (sz : Nat) : FS :=
  { fs with files := (p, sz) :: fs.files.filter fun q => q.1 != p }

/-- `os.path.exists`. -/
def FS.fileExists (fs : FS) (p : String) : Bool :=
  fs.files.any fun q => q.1 == p

/-- `os.path.getsize` (0 when the file is absent). -/
def FS.getSize (fs : FS) (p : String) : Nat :=
  ((fs.files.find? fun q => q.1 == p).map Prod.snd).getD 0

/-- `tokenizer.save_pretrained(dir)`: record that the tokenizer artifact set
now lives in `dir`. -/
def FS.saveTok (fs : FS) (d : String) : FS :=
  { fs with tokenizerSavedIn := d :: fs.tokenizerSavedIn }

/-- How the process ends.  `export_gpt2_to_onnx` itself always returns
normally; `abnormal` models an uncaught exception elsewhere. -/
inductive ExitStatus where
  | normal
  | abnormal (msg : String)
deriving DecidableEq

/-- Behavior of the external collaborators during one run: the random source
for `torch.randint`, whether the tracer actually produces the graph file when
it returns normally, and the produced file size. -/
structure Env where
  rand : Nat → Nat
  exportCreatesFile : Bool
  exportedSize : Nat

/-- The argument record of the `torch.onnx.export` call
(src/export_onnx.py, lines 57-72). -/
def exportArgs (env : Env) (baseModel : Model) : OnnxExportArgs :=
  { model := GPT2Wrapper.mk baseModel
    dummy_input_ids := dummyInputIds env.rand
    dummy_position_ids := dummyPositionIds
    path := onnx_path
    export_params := true
    opset_version := 14
    do_constant_folding := true
    input_names := ["input_ids", "position_ids"]
    output_names := ["logits"]
    dynamic_axes :=
      [ ("input_ids", [(0, "batch_size"), (1, "sequence_length")])
      , ("position_ids", [(0, "batch_size"), (1, "sequence_length")])
      , ("logits", [(0, "batch_size"), (1, "sequence_length")]) ]
    verbose := true }

/-- Console lines of the success branch (src/export_onnx.py, lines 80-86). -/
def successEvents (size : Nat) : List Event :=
  [ Event.consolePrint "\n[SUCCESS] Model exported successfully!"
  , Event.consolePrint
      ("  ONNX model: " ++ onnx_path ++ " (" ++ toString (size / 1024 / 1024) ++ " MB)")
  , Event.consolePrint ("  Tokenizer: " ++ output_dir ++ "/")
  , Event.consolePrint "\nModel signature:"
  , Event.consolePrint "  Inputs: input_ids [batch, seq_len], position_ids [batch, seq_len]"
  , Event.consolePrint "  Output: logits [batch, seq_len, vocab_size=50257]"
  , Event.consolePrint "  No KV cache (use_cache=False)" ]

/-- Console line of the failure branch (src/export_onnx.py, line 88). -/
def errorEvent : Event :=
  Event.consolePrint ("\n[ERROR] Export failed - file not found: " ++ onnx_path)

/-- `export_gpt2_to_onnx` (src/export_onnx.py, lines 26-88), as a pure
function from the collaborators' behavior and the initial filesystem to the
event trace, the final filesystem and the exit status.  The sequencing is the
source's: makedirs, load model, load tokenizer, build dummy inputs, one
`torch.onnx.export` call, `tokenizer.save_pretrained`, then the existence
check and the final report. -/
def export_gpt2_to_onnx (env : Env) (baseModel : Model) (fs0 : FS) :
    List Event × FS × ExitStatus :=
  let fs1 := fs0.mkdirAll output_dir
  let args := exportArgs env baseModel
  let fs2 := if env.exportCreatesFile then fs1.writeFile onnx_path env.exportedSize else fs1
  let fs3 := fs2.saveTok output_dir
  let tailEvents :=
    if fs3.fileExists onnx_path then successEvents (fs3.getSize onnx_path)
    else [errorEvent]
  ( [ Event.makeDirs output_dir true
    , Event.consolePrint ("Loading GPT2 model: " ++ model_id)
    , Event.loadModel model_id
    , Event.loadTokenizer model_id
    , Event.consolePrint "Exporting to ONNX..."
    , Event.onnxExport args
    , Event.saveTokenizer output_dir
    , Event.checkExists onnx_path ] ++ tailEvents
  , fs3, ExitStatus.normal )

/-- The argument records of `torch.onnx.export` calls occurring in a trace. -/
def exportCalls (tr : List Event) : List OnnxExportArgs :=
  tr.filterMap fun e =>
    match e with
    | Event.onnxExport a => some a
    | _ => none

/-- The model identifiers of load-model calls occurring in a trace. -/
def loadModelCalls (tr : List Event) : List String :=
  tr.filterMap fun e =>
    match e with
    | Event.loadModel i => some i
    | _ => none

end IsGpt

namespace IsGpt

/-! ## Helper lemmas -/

theorem shapesMatch_of_shapes {a c : Tensor2} {b l : Nat}
    (ha : HasShape2 a b l) (hc : HasShape2 c b l) : shapesMatch a c = true := by
  unfold shapesMatch
  rw [Bool.and_eq_true, beq_iff_eq, List.all_eq_true]
  refine ⟨ha.1.trans hc.1.symm, ?_⟩
  intro p hp
  obtain ⟨p1, p2⟩ := p
  obtain ⟨h1, h2⟩ := List.of_mem_zip hp
  rw [beq_iff_eq]
  rw [ha.2 _ h1, hc.2 _ h2]

theorem hasShape2_replicate_range (b l : Nat) :
    HasShape2 (List.replicate b (List.range l)) b l := by
  constructor
  · simp
  · intro r hr
    rw [List.eq_of_mem_replicate hr]
    simp

theorem specGPT2_ok {a b : Tensor2} (h : shapesMatch a b = true) :
    specGPT2 (GPT2Wrapper.callArgs a b) =
      Except.ok
        { logits := a.map fun row => row.map fun _ => List.replicate 50257 (0 : Int) } := by
  show (if shapesMatch a b = true then
      (Except.ok
        { logits := a.map fun row => row.map fun _ => List.replicate 50257 (0 : Int) } :
        Except String ModelOutput)
    else Except.error "shape mismatch") = _
  rw [if_pos h]

theorem specGPT2_error {a b : Tensor2} (h : shapesMatch a b = false) :
    specGPT2 (GPT2Wrapper.callArgs a b) = Except.error "shape mismatch" := by
  show (if shapesMatch a b = true then
      (Except.ok
        { logits := a.map fun row => row.map fun _ => List.replicate 50257 (0 : Int) } :
        Except String ModelOutput)
    else Except.error "shape mismatch") = _
  rw [if_neg]
  rw [h]
  exact Bool.false_ne_true

/-! ## Claims about the adapter -/

/-- C1: for every token-ID input of shape [B, L] with values in
[0, 50257) and a position-ID input of identical shape, the adapter forward
pass over the (spec-modelled) GPT-2 model returns a logit tensor of shape
exactly [B, L, 50257]: unnormalized scores at every position, not just the
final one. -/
theorem C1_forward_output_shape (B L : Nat) (ids pos : Tensor2)
    (hids : HasShape2 ids B L) (hpos : HasShape2 pos B L)
    (_hrange : ∀ r ∈ ids, ∀ v ∈ r, v < 50257) :
    ∃ t, (GPT2Wrapper.mk specGPT2).forward ids pos = Except.ok t ∧
      HasShape3 t B L 50257 := by
  refine ⟨ids.map fun row => row.map fun _ => List.replicate 50257 (0 : Int), ?_, ?_⟩
  · show (specGPT2 (GPT2Wrapper.callArgs ids pos)).map ModelOutput.logits = _
    rw [specGPT2_ok (shapesMatch_of_shapes hids hpos)]
    rfl
  · refine ⟨?_, ?_⟩
    · rw [List.length_map]
      exact hids.1
    · intro r hr
      rw [List.mem_map] at hr
      obtain ⟨r0, hr0, rfl⟩ := hr
      refine ⟨?_, ?_⟩
      · rw [List.length_map]
        exact hids.2 r0 hr0
      · intro c hc
        rw [List.mem_map] at hc
        obtain ⟨v, hv, rfl⟩ := hc
        exact List.length_replicate 50257 0

/-- Witness for C1 at batch size 1 and sequence length 3. -/
theorem C1_witness :
    ∃ t, (GPT2Wrapper.mk specGPT2).forward [[1, 2, 3]] [[0, 1, 2]] = Except.ok t ∧
      HasShape3 t 1 3 50257 :=
  C1_forward_output_shape 1 3 [[1, 2, 3]] [[0, 1, 2]] (by decide) (by decide) (by decide)

/-- C2: every invocation of the adapter passes the wrapped model an argument
object whose use_cache field is the explicit constant false, and the forward
result is exactly the wrapped model applied to that argument object, so the
model never reuses cached attention state. -/
theorem C2_use_cache_false (w : GPT2Wrapper) (input_ids position_ids : Tensor2) :
    (GPT2Wrapper.callArgs input_ids position_ids).use_cache = false ∧
    w.forward input_ids position_ids =
      (w.model (GPT2Wrapper.callArgs input_ids position_ids)).map ModelOutput.logits :=
  ⟨rfl, rfl⟩

/-- C3: the adapter is deterministic within one process: the state-passing
forward leaves the wrapper unchanged (it holds no state beyond the model
reference and has no side effects), so two consecutive calls with identical
inputs yield identical outputs. -/
theorem C3_deterministic (w : GPT2Wrapper) (input_ids position_ids : Tensor2) :
    (((w.forwardSt input_ids position_ids).2).forwardSt input_ids position_ids).1 =
      (w.forwardSt input_ids position_ids).1 ∧
    (w.forwardSt input_ids position_ids).2 = w :=
  ⟨rfl, rfl⟩

end IsGpt

namespace IsGpt

/-! ## Characterization of one driver run -/

/-- The events preceding the final report, common to both branches of the
existence check. -/
def headerEvents (env : Env) (baseModel : Model) : List Event :=
  [ Event.makeDirs output_dir true
  , Event.consolePrint ("Loading GPT2 model: " ++ model_id)
  , Event.loadModel model_id
  , Event.loadTokenizer model_id
  , Event.consolePrint "Exporting to ONNX..."
  , Event.onnxExport (exportArgs env baseModel)
  , Event.saveTokenizer output_dir
  , Event.checkExists onnx_path ]

/-- The filesystem state after makedirs, the export call and the tokenizer
save. -/
def fsAfter (env : Env) (fs0 : FS) : FS :=
  ((if env.exportCreatesFile then
      (fs0.mkdirAll output_dir).writeFile onnx_path env.exportedSize
    else fs0.mkdirAll output_dir).saveTok output_dir)

theorem run_trace (env : Env) (baseModel : Model) (fs0 : FS) :
    (export_gpt2_to_onnx env baseModel fs0).1 =
      headerEvents env baseModel ++
        (if (fsAfter env fs0).fileExists onnx_path then
          successEvents ((fsAfter env fs0).getSize onnx_path)
        else [errorEvent]) := rfl

theorem run_fs (env : Env) (baseModel : Model) (fs0 : FS) :
    (export_gpt2_to_onnx env baseModel fs0).2.1 = fsAfter env fs0 := rfl

theorem run_exit (env : Env) (baseModel : Model) (fs0 : FS) :
    (export_gpt2_to_onnx env baseModel fs0).2.2 = ExitStatus.normal := rfl

theorem exportCalls_append (xs ys : List Event) :
    exportCalls (xs ++ ys) = exportCalls xs ++ exportCalls ys :=
  List.filterMap_append xs ys _

theorem loadModelCalls_append (xs ys : List Event) :
    loadModelCalls (xs ++ ys) = loadModelCalls xs ++ loadModelCalls ys :=
  List.filterMap_append xs ys _

/-! ## Claims about the export driver -/

/-- C4: the export driver calls the external tracer exactly once, passing the
adapter, the dummy inputs and the target path, and the declaration it passes
names exactly two inputs (input_ids, position_ids) and one output (logits),
with axes 0 and 1 marked dynamic on all three and no dynamic marking on the
output vocabulary axis (every declared dynamic axis index is 0 or 1). -/
theorem C4_single_export_call (env : Env) (baseModel : Model) (fs0 : FS) :
    exportCalls (export_gpt2_to_onnx env baseModel fs0).1 = [exportArgs env baseModel] ∧
    (exportArgs env baseModel).model = GPT2Wrapper.mk baseModel ∧
    (exportArgs env baseModel).dummy_input_ids = dummyInputIds env.rand ∧
    (exportArgs env baseModel).dummy_position_ids = dummyPositionIds ∧
    (exportArgs env baseModel).path = onnx_path ∧
    (exportArgs env baseModel).input_names = ["input_ids", "position_ids"] ∧
    (exportArgs env baseModel).output_names = ["logits"] ∧
    (exportArgs env baseModel).dynamic_axes =
      [ ("input_ids", [(0, "batch_size"), (1, "sequence_length")])
      , ("position_ids", [(0, "batch_size"), (1, "sequence_length")])
      , ("logits", [(0, "batch_size"), (1, "sequence_length")]) ] ∧
    ((exportArgs env baseModel).dynamic_axes.all fun p =>
      p.2.all fun q => q.1 == 0 || q.1 == 1) = true := by
  refine ⟨?_, rfl, rfl, rfl, rfl, rfl, rfl, rfl, rfl⟩
  rw [run_trace, exportCalls_append]
  split
  · rfl
  · rfl

/-- C5: the dummy token-ID input has the fixed shape
[batch_size, seq_length] = [1, 10] with every value in [0, 50257), and the
dummy position-ID input has the same shape with entry i equal to i. -/
theorem C5_dummy_inputs (rand : Nat → Nat) :
    HasShape2 (dummyInputIds rand) batch_size seq_length ∧
    (∀ r ∈ dummyInputIds rand, ∀ v ∈ r, v < 50257) ∧
    dummyPositionIds = [List.range seq_length] ∧
    HasShape2 dummyPositionIds batch_size seq_length ∧
    (∀ r ∈ dummyPositionIds, ∀ i : Nat, ∀ h : i < r.length, r.get ⟨i, h⟩ = i) := by
  have hids : dummyInputIds rand =
      [(List.range seq_length).map fun i => rand (0 * seq_length + i) % 50257] := rfl
  refine ⟨⟨rfl, ?_⟩, ?_, rfl, ⟨rfl, ?_⟩, ?_⟩
  · intro r hr
    rw [hids, List.mem_singleton] at hr
    subst hr
    rw [List.length_map]
    rfl
  · intro r hr v hv
    rw [hids, List.mem_singleton] at hr
    subst hr
    rw [List.mem_map] at hv
    obtain ⟨i, hi, rfl⟩ := hv
    exact Nat.mod_lt _ (by decide)
  · intro r hr
    have hr2 : r = List.range seq_length := List.mem_singleton.mp hr
    subst hr2
    rfl
  · intro r hr i h
    have hr2 : r = List.range seq_length := List.mem_singleton.mp hr
    subst hr2
    exact List.get_range i h

/-- Witness for C5 with the identity random source. -/
theorem C5_witness :
    HasShape2 (dummyInputIds fun n => n) batch_size seq_length ∧
    (∀ r ∈ dummyInputIds fun n => n, ∀ v ∈ r, v < 50257) ∧
    dummyPositionIds = [List.range seq_length] ∧
    HasShape2 dummyPositionIds batch_size seq_length ∧
    (∀ r ∈ dummyPositionIds, ∀ i : Nat, ∀ h : i < r.length, r.get ⟨i, h⟩ = i) :=
  C5_dummy_inputs fun n => n

end IsGpt

namespace IsGpt

/-! ## Filesystem helper lemmas -/

theorem mkdirAll_fileExists (fs : FS) (d p : String) :
    (fs.mkdirAll d).fileExists p = fs.fileExists p := rfl

theorem saveTok_fileExists (fs : FS) (d p : String) :
    (fs.saveTok d).fileExists p = fs.fileExists p := rfl

theorem writeFile_dirs (fs : FS) (p : String) (sz : Nat) :
    (fs.writeFile p sz).dirs = fs.dirs := rfl

theorem saveTok_dirs (fs : FS) (d : String) :
    (fs.saveTok d).dirs = fs.dirs := rfl

theorem fileExists_writeFile (fs : FS) (p : String) (sz : Nat) :
    (fs.writeFile p sz).fileExists p = true := by
  simp [FS.writeFile, FS.fileExists]

theorem mem_mkdirAll (fs : FS) (d : String) : d ∈ (fs.mkdirAll d).dirs := by
  show d ∈ (if fs.dirs.contains d = true then fs.dirs else d :: fs.dirs)
  split
  · next h => exact List.mem_of_elem_eq_true h
  · exact List.mem_cons_self _ _

/-! ## Remaining claims -/

/-- C6: after the tracing call returns, the driver checks the target path:
when the file exists the trace reports the path and its size, when it does
not the trace reports an error; in either case the tracer was called exactly
once (no retry) and the run ends with the same normal exit status. -/
theorem C6_verification (env : Env) (baseModel : Model) (fs0 : FS) :
    ((export_gpt2_to_onnx env baseModel fs0).2.1.fileExists onnx_path = true →
      Event.consolePrint
          ("  ONNX model: " ++ onnx_path ++ " (" ++
            toString
              ((export_gpt2_to_onnx env baseModel fs0).2.1.getSize onnx_path / 1024 / 1024) ++
            " MB)") ∈ (export_gpt2_to_onnx env baseModel fs0).1) ∧
    ((export_gpt2_to_onnx env baseModel fs0).2.1.fileExists onnx_path = false →
      errorEvent ∈ (export_gpt2_to_onnx env baseModel fs0).1) ∧
    (exportCalls (export_gpt2_to_onnx env baseModel fs0).1).length = 1 ∧
    (export_gpt2_to_onnx env baseModel fs0).2.2 = ExitStatus.normal := by
  refine ⟨?_, ?_, ?_, rfl⟩
  · intro h
    rw [run_fs] at h
    rw [run_trace, run_fs, if_pos h]
    exact List.mem_append_right _ (List.mem_cons_of_mem _ (List.mem_cons_self _ _))
  · intro h
    rw [run_fs] at h
    rw [run_trace, if_neg]
    · exact List.mem_append_right _ (List.mem_cons_self _ _)
    · rw [h]
      exact Bool.false_ne_true
  · rw [run_trace, exportCalls_append]
    split
    · rfl
    · rfl

/-- Witness for C6: a run in which the tracer produced the file reports the
path and size and exits normally. -/
theorem C6_witness :
    Event.consolePrint
        ("  ONNX model: " ++ onnx_path ++ " (" ++
          toString
            ((export_gpt2_to_onnx ⟨fun n => n, true, 5000000⟩ specGPT2
                ⟨[], [], []⟩).2.1.getSize onnx_path / 1024 / 1024) ++
          " MB)") ∈
      (export_gpt2_to_onnx ⟨fun n => n, true, 5000000⟩ specGPT2 ⟨[], [], []⟩).1 ∧
    (export_gpt2_to_onnx ⟨fun n => n, true, 5000000⟩ specGPT2 ⟨[], [], []⟩).2.2 =
      ExitStatus.normal :=
  ⟨(C6_verification ⟨fun n => n, true, 5000000⟩ specGPT2 ⟨[], [], []⟩).1 (by decide),
   (C6_verification ⟨fun n => n, true, 5000000⟩ specGPT2 ⟨[], [], []⟩).2.2.2⟩

/-- C7: the adapter (over the spec-modelled GPT-2 model) accepts any
zero-based increasing position run of length L matching the token batch,
fails on mismatched token/position shapes, and itself defines no error
conditions: a failure of the wrapped model propagates unchanged. -/
theorem C7_accept_and_propagate :
    (∀ (B L : Nat) (ids pos : Tensor2), 1 ≤ L → HasShape2 ids B L →
      pos = List.replicate B (List.range L) →
      ∃ t, (GPT2Wrapper.mk specGPT2).forward ids pos = Except.ok t) ∧
    (∀ ids pos : Tensor2, shapesMatch ids pos = false →
      (GPT2Wrapper.mk specGPT2).forward ids pos = Except.error "shape mismatch") ∧
    (∀ (m : Model) (ids pos : Tensor2) (e : String),
      m (GPT2Wrapper.callArgs ids pos) = Except.error e →
      (GPT2Wrapper.mk m).forward ids pos = Except.error e) := by
  refine ⟨?_, ?_, ?_⟩
  · intro B L ids pos hL hids hpos
    subst hpos
    refine ⟨ids.map fun row => row.map fun _ => List.replicate 50257 (0 : Int), ?_⟩
    show (specGPT2
        (GPT2Wrapper.callArgs ids (List.replicate B (List.range L)))).map
        ModelOutput.logits = _
    rw [specGPT2_ok (shapesMatch_of_shapes hids (hasShape2_replicate_range B L))]
    rfl
  · intro ids pos h
    show (specGPT2 (GPT2Wrapper.callArgs ids pos)).map ModelOutput.logits = _
    rw [specGPT2_error h]
    rfl
  · intro m ids pos e h
    show (m (GPT2Wrapper.callArgs ids pos)).map ModelOutput.logits = _
    rw [h]
    rfl

/-- Witness for C7: acceptance at L = 2, failure at mismatched lengths, and
unchanged propagation of a model error. -/
theorem C7_witness :
    (∃ t, (GPT2Wrapper.mk specGPT2).forward [[5, 6]] [[0, 1]] = Except.ok t) ∧
    (GPT2Wrapper.mk specGPT2).forward [[5, 6]] [[0]] = Except.error "shape mismatch" ∧
    (GPT2Wrapper.mk fun _ => Except.error "boom").forward [[1]] [[0]] =
      Except.error "boom" :=
  ⟨C7_accept_and_propagate.1 1 2 [[5, 6]] [[0, 1]] (by decide) (by decide) (by decide),
   C7_accept_and_propagate.2.1 [[5, 6]] [[0]] (by decide),
   C7_accept_and_propagate.2.2 (fun _ => Except.error "boom") [[1]] [[0]] "boom" rfl⟩

/-- C8: a run begins by creating the output directory with the exist-ok
option (so it succeeds whether or not the directory exists), the directory is
present afterwards, and after a successful run it holds both the graph file
(whose path lies inside it) and the tokenizer artifact set. -/
theorem C8_output_directory (env : Env) (baseModel : Model) (fs0 : FS) :
    (export_gpt2_to_onnx env baseModel fs0).1.head? =
      some (Event.makeDirs output_dir true) ∧
    output_dir ∈ (export_gpt2_to_onnx env baseModel fs0).2.1.dirs ∧
    (env.exportCreatesFile = true →
      (export_gpt2_to_onnx env baseModel fs0).2.1.fileExists onnx_path = true) ∧
    output_dir ∈ (export_gpt2_to_onnx env baseModel fs0).2.1.tokenizerSavedIn ∧
    onnx_path = joinPath output_dir "model.onnx" := by
  refine ⟨rfl, ?_, ?_, ?_, rfl⟩
  · rw [run_fs]
    unfold fsAfter
    rw [saveTok_dirs]
    split
    · rw [writeFile_dirs]
      exact mem_mkdirAll fs0 output_dir
    · exact mem_mkdirAll fs0 output_dir
  · intro h
    rw [run_fs]
    unfold fsAfter
    rw [if_pos h, saveTok_fileExists]
    exact fileExists_writeFile _ onnx_path env.exportedSize
  · rw [run_fs]
    unfold fsAfter
    exact List.mem_cons_self _ _

/-- Witness for C8: a successful run from an empty filesystem leaves the
directory with the graph file and the tokenizer artifacts. -/
theorem C8_witness :
    output_dir ∈
      (export_gpt2_to_onnx ⟨fun n => n, true, 42⟩ specGPT2 ⟨[], [], []⟩).2.1.dirs ∧
    (export_gpt2_to_onnx ⟨fun n => n, true, 42⟩ specGPT2
        ⟨[], [], []⟩).2.1.fileExists onnx_path = true ∧
    output_dir ∈
      (export_gpt2_to_onnx ⟨fun n => n, true, 42⟩ specGPT2
        ⟨[], [], []⟩).2.1.tokenizerSavedIn :=
  ⟨(C8_output_directory ⟨fun n => n, true, 42⟩ specGPT2 ⟨[], [], []⟩).2.1,
   (C8_output_directory ⟨fun n => n, true, 42⟩ specGPT2 ⟨[], [], []⟩).2.2.1 rfl,
   (C8_output_directory ⟨fun n => n, true, 42⟩ specGPT2 ⟨[], [], []⟩).2.2.2.1⟩

/-- C9: the model identifier and the output location are fixed constants,
not parameters: every run, whatever the collaborators and the initial
filesystem, loads model "gpt2" and passes the tracer exactly the path
"models/model.onnx". -/
theorem C9_fixed_constants (env : Env) (baseModel : Model) (fs0 : FS) :
    loadModelCalls (export_gpt2_to_onnx env baseModel fs0).1 = ["gpt2"] ∧
    (exportCalls (export_gpt2_to_onnx env baseModel fs0).1).map OnnxExportArgs.path =
      ["models/model.onnx"] ∧
    model_id = "gpt2" ∧ onnx_path = "models/model.onnx" := by
  refine ⟨?_, ?_, rfl, by decide⟩
  · rw [run_trace, loadModelCalls_append]
    split
    · rfl
    · rfl
  · rw [run_trace, exportCalls_append]
    split
    · rfl
    · rfl

/-- C10: the tokenizer artifact set is saved unconditionally, after the
tracer call (trace position 6, between the export call at position 5 and the
existence check at position 7); in the silent-failure case the run still
records the tokenizer save in the output directory while the trace reports
the error. -/
theorem C10_tokenizer_saved_on_silent_failure (env : Env) (baseModel : Model)
    (fs0 : FS) (henv : env.exportCreatesFile = false)
    (h0 : fs0.fileExists onnx_path = false) :
    (export_gpt2_to_onnx env baseModel fs0).1.get? 5 =
      some (Event.onnxExport (exportArgs env baseModel)) ∧
    (export_gpt2_to_onnx env baseModel fs0).1.get? 6 =
      some (Event.saveTokenizer output_dir) ∧
    (export_gpt2_to_onnx env baseModel fs0).1.get? 7 =
      some (Event.checkExists onnx_path) ∧
    output_dir ∈ (export_gpt2_to_onnx env baseModel fs0).2.1.tokenizerSavedIn ∧
    errorEvent ∈ (export_gpt2_to_onnx env baseModel fs0).1 := by
  have hfe : (fsAfter env fs0).fileExists onnx_path = false := by
    unfold fsAfter
    rw [if_neg, saveTok_fileExists, mkdirAll_fileExists]
    · exact h0
    · rw [henv]
      exact Bool.false_ne_true
  refine ⟨rfl, rfl, rfl, ?_, ?_⟩
  · rw [run_fs]
    unfold fsAfter
    exact List.mem_cons_self _ _
  · rw [run_trace, if_neg]
    · exact List.mem_append_right _ (List.mem_cons_self _ _)
    · rw [hfe]
      exact Bool.false_ne_true

/-- Witness for C10: with a tracer that produces no file over an empty
filesystem, the tokenizer save is still recorded and the error is printed. -/
theorem C10_witness :
    output_dir ∈
      (export_gpt2_to_onnx ⟨fun n => n, false, 0⟩ specGPT2
        ⟨[], [], []⟩).2.1.tokenizerSavedIn ∧
    errorEvent ∈ (export_gpt2_to_onnx ⟨fun n => n, false, 0⟩ specGPT2 ⟨[], [], []⟩).1 :=
  ⟨(C10_tokenizer_saved_on_silent_failure ⟨fun n => n, false, 0⟩ specGPT2 ⟨[], [], []⟩
      rfl rfl).2.2.2.1,
   (C10_tokenizer_saved_on_silent_failure ⟨fun n => n, false, 0⟩ specGPT2 ⟨[], [], []⟩
      rfl rfl).2.2.2.2⟩

end IsGpt
